import Mathlib

/-!
Shallow embedding of the dealer-app data-fetch / cache / order-submission layer.

Sources embedded (TypeScript):
  - src/lib/api/dealers.ts        (fetchDealerByUserId)
  - src/lib/api/finance.ts        (cache helpers, fetchDealerFinance, order-create createOrder)
  - src/unnamed/part_001          (orders api: validator + createOrder, fetchDealerDetails,
                                   fetchDealerOrders; price-charts api: fetchPriceChartByCode,
                                   fetchPriceChartItems; products api: fetchPriceChartProducts)
  - src/unnamed/part_006          (orders screen: loadCachedData, saveToCache, fetchOrders)

Modelling conventions: JS numbers are rationals; JS string falsiness is equality with
the empty string; nullable values are Option; thrown errors and rethrown store errors
are an explicit error type; every remote query issued is recorded in a call trace.
-/

/-- Structured error returned by the remote record store (message plus optional code). -/
structure StoreError where
  message : String
  code : Option String
deriving Repr, DecidableEq

/-- Errors surfaced by the embedded functions: either a thrown `new Error(msg)` or a
rethrown store error object passed through verbatim. -/
inductive AppError where
  | thrown (message : String)
  | store (e : StoreError)
deriving Repr, DecidableEq

/-- Row shape returned by the dealers-by-user query (dealers.ts). -/
structure DealerData where
  id : String
  name : String
  dealer_code : String
  salesman_id : Option String
  price_chart_code : Option String
deriving Repr, DecidableEq

/-- Row shape returned by the price-chart query (part_001 price-charts api). -/
structure PriceChartData where
  id : String
  name : String
  price_chart_code : String
deriving Repr, DecidableEq

/-- Raw joined row of the price_chart_items query (product join flattened). -/
structure ItemRow where
  id : String
  product_id : String
  product_name : String
  product_category : Option String
  product_unit : String
  price_per_unit : ℚ
  currency : String
  effective_date : String
  expiry_date : Option String
deriving Repr, DecidableEq

/-- Product record produced by the standalone fetchPriceChartProducts (part_001). -/
structure ProductRec where
  id : String
  name : String
  category : String
  unit : String
  price_per_unit : ℚ
  currency : String
  effective_date : String
  expiry_date : Option String
deriving Repr, DecidableEq

/-- Finance ledger row (finance.ts Transaction). -/
structure Transaction where
  id : String
  transaction_type : String
  amount : ℚ
  description : String
  transaction_date : String
  reference_id : String
  created_at : String
deriving Repr, DecidableEq

/-- Dealer balance view row (finance.ts DealerBalance). -/
structure DealerBalance where
  dealer_id : String
  dealer_name : String
  dealer_code : String
  current_balance : ℚ
  last_transaction_date : String
deriving Repr, DecidableEq

/-- Composite finance read model; balance mirrors the unchecked nullable single() result. -/
structure DealerFinanceData where
  transactions : List Transaction
  balance : Option DealerBalance
deriving Repr, DecidableEq

/-- Candidate order passed to the submission path (types/orders CreateOrderData). -/
structure CreateOrderData where
  dealer_id : String
  product_id : String
  product_name : String
  unit : String
  quantity : ℚ
  price_chart_id : Option String
  price_per_unit : ℚ
  total_price : ℚ
  status : String
  notes : Option String
deriving Repr, DecidableEq

/-- Payload the client inserts into the orders table (order-create createOrder). -/
structure OrderInsert where
  dealer_id : String
  salesman_id : Option String
  product_id : String
  product_name : String
  unit : String
  quantity : ℚ
  price_chart_id : Option String
  price_per_unit : ℚ
  total_price : ℚ
  status : String
  notes : Option String
deriving Repr, DecidableEq

/-- Order row as materialized by the store after an insert-with-returning. -/
structure CreatedOrder where
  id : String
  dealer_id : String
  salesman_id : Option String
  product_id : String
  product_name : String
  unit : String
  quantity : ℚ
  price_chart_id : Option String
  price_per_unit : ℚ
  total_price : ℚ
  status : String
  notes : Option String
  created_at : String
deriving Repr, DecidableEq

/-- Order row as read by the orders screen (part_006 Order interface). -/
structure OrderRow where
  id : String
  product_name : String
  quantity : ℚ
  total_price : ℚ
  status : String
  created_at : String
deriving Repr, DecidableEq

/-- Trace entry for each remote store query issued. -/
inductive RemoteCall where
  | dealersByUser (userId : String)
  | dealersSalesman (dealerId : String)
  | ordersInsert (payload : OrderInsert)
  | priceChartById (chartId : String)
  | priceChartItems (chartId : String)
  | ordersByDealer (dealerId : String)
  | finTransactions (dealerId : String)
  | finBalance (dealerId : String)
deriving Repr, DecidableEq

/-- Oracle for the remote record store: one response function per query shape.
Option models a null data field where the code checks for it. -/
structure Store where
  dealerByUser : String → Except StoreError (Option DealerData)
  dealerSalesman : String → Except StoreError (Option (Option String))
  orderInsert : OrderInsert → Except StoreError (Option CreatedOrder)
  priceChartById : String → Except StoreError (Option PriceChartData)
  priceChartItems : String → Except StoreError (Option (List ItemRow))
  ordersByDealer : String → Except StoreError (List OrderRow)
  finTransactions : String → Except StoreError (Option (List Transaction))
  finBalance : String → Except StoreError (Option DealerBalance)

/-- dealers.ts fetchDealerByUserId: empty-id guard, PGRST116 mapped to a NotFound
message, other store errors rethrown verbatim, null data mapped to a thrown error. -/
def fetchDealerByUserId (store : Store) (userId : String) :
    Except AppError DealerData × List RemoteCall :=
  if userId = "" then (Except.error (AppError.thrown "User ID is required"), [])
  else
    match store.dealerByUser userId with
    | Except.error e =>
        if e.code = some "PGRST116" then
          (Except.error (AppError.thrown "No dealer found for this user"),
           [RemoteCall.dealersByUser userId])
        else
          (Except.error (AppError.store e), [RemoteCall.dealersByUser userId])
    | Except.ok none =>
        (Except.error (AppError.thrown "Dealer not found"), [RemoteCall.dealersByUser userId])
    | Except.ok (some d) => (Except.ok d, [RemoteCall.dealersByUser userId])

/-- part_001 price-charts api fetchPriceChartByCode: single-row chart lookup. -/
def fetchPriceChartByCode (store : Store) (priceChartId : String) :
    Except AppError PriceChartData × List RemoteCall :=
  if priceChartId = "" then (Except.error (AppError.thrown "Price chart ID is required"), [])
  else
    match store.priceChartById priceChartId with
    | Except.error e =>
        (Except.error (AppError.thrown ("Failed to fetch price chart: " ++ e.message)),
         [RemoteCall.priceChartById priceChartId])
    | Except.ok none =>
        (Except.error (AppError.thrown "Price chart not found"),
         [RemoteCall.priceChartById priceChartId])
    | Except.ok (some d) => (Except.ok d, [RemoteCall.priceChartById priceChartId])

/-- part_001 price-charts api fetchPriceChartItems: active items joined with product,
hard failure on a null or empty result set. The transform is the identity projection. -/
def fetchPriceChartItems (store : Store) (priceChartId : String) :
    Except AppError (List ItemRow) × List RemoteCall :=
  if priceChartId = "" then (Except.error (AppError.thrown "Price chart ID is required"), [])
  else
    match store.priceChartItems priceChartId with
    | Except.error e =>
        (Except.error (AppError.thrown ("Failed to fetch price chart items: " ++ e.message)),
         [RemoteCall.priceChartItems priceChartId])
    | Except.ok none =>
        (Except.error (AppError.thrown "No active price chart items found"),
         [RemoteCall.priceChartItems priceChartId])
    | Except.ok (some rows) =>
        if rows.length = 0 then
          (Except.error (AppError.thrown "No active price chart items found"),
           [RemoteCall.priceChartItems priceChartId])
        else
          (Except.ok (rows.map (fun r =>
            { id := r.id, product_id := r.product_id, product_name := r.product_name,
              product_category := r.product_category, product_unit := r.product_unit,
              price_per_unit := r.price_per_unit, currency := r.currency,
              effective_date := r.effective_date, expiry_date := r.expiry_date })),
           [RemoteCall.priceChartItems priceChartId])

/-- part_001 products api fetchPriceChartProducts: same active-items query, but a null
or empty result set yields the empty list instead of an error. -/
def fetchPriceChartProducts (store : Store) (priceChartId : String) :
    Except AppError (List ProductRec) × List RemoteCall :=
  if priceChartId = "" then (Except.error (AppError.thrown "Price chart ID is required"), [])
  else
    match store.priceChartItems priceChartId with
    | Except.error e =>
        (Except.error (AppError.thrown ("Failed to fetch products: " ++ e.message)),
         [RemoteCall.priceChartItems priceChartId])
    | Except.ok none => (Except.ok [], [RemoteCall.priceChartItems priceChartId])
    | Except.ok (some rows) =>
        if rows.length = 0 then (Except.ok [], [RemoteCall.priceChartItems priceChartId])
        else
          (Except.ok (rows.map (fun r =>
            { id := r.product_id, name := r.product_name,
              category := r.product_category.getD "", unit := r.product_unit,
              price_per_unit := r.price_per_unit, currency := r.currency,
              effective_date := r.effective_date, expiry_date := r.expiry_date })),
           [RemoteCall.priceChartItems priceChartId])

/-- Dealer details record returned to screens (part_001 orders api DealerDetails). -/
structure DealerDetails where
  id : String
  name : String
  dealer_code : String
  salesman_id : Option String
  price_chart : Option PriceChartData
deriving Repr, DecidableEq

/-- part_001 orders api fetchDealerDetails: dealer lookup, then an optional price-chart
lookup whose failure is caught and replaced by a null chart. -/
def fetchDealerDetails (store : Store) (userId : String) :
    Except AppError DealerDetails × List RemoteCall :=
  if userId = "" then (Except.error (AppError.thrown "User ID is required"), [])
  else
    match fetchDealerByUserId store userId with
    | (Except.error e, cs) => (Except.error e, cs)
    | (Except.ok dealer, cs) =>
        match dealer.price_chart_code with
        | none =>
            (Except.ok { id := dealer.id, name := dealer.name, dealer_code := dealer.dealer_code,
                         salesman_id := dealer.salesman_id, price_chart := none }, cs)
        | some code =>
            if code = "" then
              (Except.ok { id := dealer.id, name := dealer.name, dealer_code := dealer.dealer_code,
                           salesman_id := dealer.salesman_id, price_chart := none }, cs)
            else
              match fetchPriceChartByCode store code with
              | (Except.error _, cs2) =>
                  (Except.ok { id := dealer.id, name := dealer.name,
                               dealer_code := dealer.dealer_code,
                               salesman_id := dealer.salesman_id, price_chart := none },
                   cs ++ cs2)
              | (Except.ok pc, cs2) =>
                  (Except.ok { id := dealer.id, name := dealer.name,
                               dealer_code := dealer.dealer_code,
                               salesman_id := dealer.salesman_id, price_chart := some pc },
                   cs ++ cs2)

/-- part_001 orders api fetchDealerOrders: orders by dealer, raw store error rethrown. -/
def fetchDealerOrders (store : Store) (dealerId : String) :
    Except AppError (List OrderRow) × List RemoteCall :=
  if dealerId = "" then (Except.error (AppError.thrown "Dealer ID is required"), [])
  else
    match store.ordersByDealer dealerId with
    | Except.error e => (Except.error (AppError.store e), [RemoteCall.ordersByDealer dealerId])
    | Except.ok rows => (Except.ok rows, [RemoteCall.ordersByDealer dealerId])

/-- Validation section of part_001 orders api createOrder, lines 99 to 105: the checks
in source order, returning the first violated rule's message. -/
def validateOrder (o : CreateOrderData) : Option String :=
  if o.dealer_id = "" then some "Dealer ID is required"
  else if o.product_id = "" then some "Product ID is required"
  else if o.product_name = "" then some "Product name is required"
  else if o.unit = "" then some "Unit is required"
  else if o.quantity ≤ 0 then some "Quantity must be greater than 0"
  else if o.price_per_unit ≤ 0 then some "Price per unit must be greater than 0"
  else if o.total_price ≤ 0 then some "Total price must be greater than 0"
  else none

/-- Truthiness test of the order-create createOrder required-field guard: every listed
field must be JS-truthy (strings nonempty, numbers nonzero, nullable string present). -/
def requiredFieldsPresent (o : CreateOrderData) : Bool :=
  decide (o.dealer_id ≠ "") && decide (o.product_id ≠ "") && decide (o.quantity ≠ 0) &&
  (match o.price_chart_id with | none => false | some s => decide (s ≠ "")) &&
  decide (o.price_per_unit ≠ 0) && decide (o.product_name ≠ "") && decide (o.unit ≠ "")

/-- JS expression `dealerData?.salesman_id || null`: a missing row, null value or empty
string all collapse to null. -/
def resolveSalesman (row : Option (Option String)) : Option String :=
  match row with
  | none => none
  | some none => none
  | some (some s) => if s = "" then none else some s

/-- Insert payload built by order-create createOrder: total_price is recomputed as
quantity times price_per_unit; status is hardcoded; empty notes collapse to null. -/
def mkOrderInsert (o : CreateOrderData) (row : Option (Option String)) : OrderInsert :=
  { dealer_id := o.dealer_id, salesman_id := resolveSalesman row,
    product_id := o.product_id, product_name := o.product_name, unit := o.unit,
    quantity := o.quantity, price_chart_id := o.price_chart_id,
    price_per_unit := o.price_per_unit,
    total_price := o.quantity * o.price_per_unit,
    status := "processing",
    notes := match o.notes with | none => none | some s => if s = "" then none else some s }

/-- order-create createOrder (imported as createOrderApi in part_001): required-field
guard, dealer salesman lookup, insert-with-returning. -/
def createOrderApi (store : Store) (o : CreateOrderData) :
    Except AppError CreatedOrder × List RemoteCall :=
  if requiredFieldsPresent o then
    match store.dealerSalesman o.dealer_id with
    | Except.error _ =>
        (Except.error (AppError.thrown "Failed to fetch dealer details"),
         [RemoteCall.dealersSalesman o.dealer_id])
    | Except.ok row =>
        match store.orderInsert (mkOrderInsert o row) with
        | Except.error e =>
            (Except.error (AppError.thrown ("Failed to create order: " ++ e.message)),
             [RemoteCall.dealersSalesman o.dealer_id,
              RemoteCall.ordersInsert (mkOrderInsert o row)])
        | Except.ok none =>
            (Except.error (AppError.thrown "Order was not created"),
             [RemoteCall.dealersSalesman o.dealer_id,
              RemoteCall.ordersInsert (mkOrderInsert o row)])
        | Except.ok (some created) =>
            (Except.ok created,
             [RemoteCall.dealersSalesman o.dealer_id,
              RemoteCall.ordersInsert (mkOrderInsert o row)])
  else
    (Except.error
      (AppError.thrown "Missing required fields. Please ensure all required data is provided."),
     [])

/-- part_001 orders api createOrder: validator first, then delegate to createOrderApi. -/
def createOrder (store : Store) (o : CreateOrderData) :
    Except AppError CreatedOrder × List RemoteCall :=
  match validateOrder o with
  | some m => (Except.error (AppError.thrown m), [])
  | none => createOrderApi store o

/-- Cache validity window of 5 minutes in milliseconds, shared by every cache key. -/
def CACHE_DURATION : Nat := 5 * 60 * 1000

/-- Local persisted finance cache: last-fetch timestamp key plus payload key. -/
structure FinanceCache where
  lastFetch : Option Nat
  payload : Option DealerFinanceData
deriving Repr, DecidableEq

/-- finance.ts isCacheValid: age test on the stored timestamp; a storage read failure
is caught and reported as invalid. readOk models whether the storage read succeeds. -/
def isCacheValid (st : FinanceCache) (now : Nat) (readOk : Bool) : Bool :=
  if readOk then
    match st.lastFetch with
    | none => false
    | some t => decide (now - t < CACHE_DURATION)
  else false

/-- finance.ts getCachedData: stored payload, with a storage read failure caught and
reported as a miss. -/
def getCachedData (st : FinanceCache) (readOk : Bool) : Option DealerFinanceData :=
  if readOk then st.payload else none

/-- finance.ts saveToCache: overwrite payload and timestamp; a storage write failure is
caught and leaves the entry as it was, with no error surfaced. -/
def saveToCache (st : FinanceCache) (d : DealerFinanceData) (now : Nat) (writeOk : Bool) :
    FinanceCache :=
  if writeOk then { lastFetch := some now, payload := some d } else st

/-- finance.ts fetchDealerFinance: dealer lookup then transactions and balance in
parallel; first error aborts. The forceRefresh parameter and the cache helpers above
are never consulted by this function, mirroring the source. -/
def fetchDealerFinance (store : Store) (userId : String) (forceRefresh : Bool) :
    Except AppError DealerFinanceData × List RemoteCall :=
  if userId = "" then (Except.error (AppError.thrown "User ID is required"), [])
  else
    match fetchDealerByUserId store userId with
    | (Except.error e, cs) => (Except.error e, cs)
    | (Except.ok dealer, cs) =>
        let cs2 := cs ++ [RemoteCall.finTransactions dealer.id, RemoteCall.finBalance dealer.id]
        match store.finTransactions dealer.id with
        | Except.error e => (Except.error (AppError.store e), cs2)
        | Except.ok tdata =>
            match store.finBalance dealer.id with
            | Except.error e => (Except.error (AppError.store e), cs2)
            | Except.ok bdata =>
                (Except.ok { transactions := tdata.getD [], balance := bdata }, cs2)

/-- Local persisted orders cache (part_006): last-fetch timestamp key plus payload key. -/
structure OrdersCache where
  lastFetch : Option Nat
  payload : Option (List OrderRow)
deriving Repr, DecidableEq

/-- Screen state of the orders screen (part_006): orders list, inline error, loading. -/
structure OrdersScreenState where
  orders : List OrderRow
  error : Option String
  loading : Bool
deriving Repr, DecidableEq

/-- part_006 loadCachedData: within the validity window the cached orders are loaded
into the screen state and true is returned; otherwise false. A storage failure in the
try block is caught and reported as false. readOk models the storage reads succeeding. -/
def loadCachedData (cache : OrdersCache) (now : Nat) (readOk : Bool) (s : OrdersScreenState) :
    Bool × OrdersScreenState :=
  if readOk then
    match cache.lastFetch with
    | none => (false, s)
    | some t =>
        if now - t < CACHE_DURATION then
          match cache.payload with
          | none => (false, s)
          | some rows => (true, { s with orders := rows })
        else (false, s)
  else (false, s)

/-- part_006 saveToCache: overwrite orders payload and timestamp; a storage write
failure is caught and leaves the entry as it was, with no error surfaced. -/
def ordersSaveToCache (cache : OrdersCache) (rows : List OrderRow) (now : Nat)
    (writeOk : Bool) : OrdersCache :=
  if writeOk then { lastFetch := some now, payload := some rows } else cache

/-- JS `err instanceof Error ? err.message : fallback`: thrown errors carry their
message, rethrown raw store error objects fall back to the generic message. -/
def caughtMessage (e : AppError) (fallback : String) : String :=
  match e with
  | AppError.thrown m => m
  | AppError.store _ => fallback

/-- Result of one run of the orders screen fetchOrders callback. -/
structure OrdersStepResult where
  state : OrdersScreenState
  cache : OrdersCache
  calls : List RemoteCall
deriving Repr

/-- part_006 fetchOrders: resolve dealer from the profile user id, fetch the orders,
store them in state and cache on success; on any failure record the message in the
error state and leave the cache untouched. -/
def fetchOrdersStep (store : Store) (userId : Option String) (cache : OrdersCache)
    (now : Nat) (writeOk : Bool) (s : OrdersScreenState) : OrdersStepResult :=
  match userId with
  | none =>
      { state := { s with error := some "User ID not found", loading := false },
        cache := cache, calls := [] }
  | some u =>
      if u = "" then
        { state := { s with error := some "User ID not found", loading := false },
          cache := cache, calls := [] }
      else
        match fetchDealerByUserId store u with
        | (Except.error e, cs) =>
            { state :=
                { s with
                    error := some (caughtMessage e "Failed to fetch orders"),
                    loading := false },
              cache := cache, calls := cs }
        | (Except.ok dealer, cs) =>
            match fetchDealerOrders store dealer.id with
            | (Except.error e, cs2) =>
                { state :=
                    { s with
                        error := some (caughtMessage e "Failed to fetch orders"),
                        loading := false },
                  cache := cache, calls := cs ++ cs2 }
            | (Except.ok rows, cs2) =>
                { state := { s with orders := rows, loading := false },
                  cache := ordersSaveToCache cache rows now writeOk,
                  calls := cs ++ cs2 }

/-- Predicate: the remote part of the orders load fails (dealer lookup errors, returns
no row, or the orders query errors). -/
def ordersRemoteFails (store : Store) (u : String) : Prop :=
  match store.dealerByUser u with
  | Except.error _ => True
  | Except.ok none => True
  | Except.ok (some d) => ∃ e, store.ordersByDealer d.id = Except.error e

/-- Specification-side restatement of the validator for the refinement claim: the
ordered rule list (dealer id, product id, product name, unit, quantity, unit price,
total price), each paired with its message. -/
def specFieldChecks (o : CreateOrderData) : List (Bool × String) :=
  [ (decide (o.dealer_id = ""), "Dealer ID is required"),
    (decide (o.product_id = ""), "Product ID is required"),
    (decide (o.product_name = ""), "Product name is required"),
    (decide (o.unit = ""), "Unit is required"),
    (decide (o.quantity ≤ 0), "Quantity must be greater than 0"),
    (decide (o.price_per_unit ≤ 0), "Price per unit must be greater than 0"),
    (decide (o.total_price ≤ 0), "Total price must be greater than 0") ]

/-- Specification-side validator: message of the first violated rule in the fixed
order, if any. -/
def firstViolation (o : CreateOrderData) : Option String :=
  (List.find? (fun p => p.1) (specFieldChecks o)).map (fun p => p.2)

/-- Sample dealer row used to instantiate the store oracle. -/
def dealerSample : DealerData :=
  { id := "d1", name := "Dealer One", dealer_code := "D001",
    salesman_id := some "s1", price_chart_code := some "pc-1" }

/-- Sample price chart row. -/
def chartSample : PriceChartData :=
  { id := "pc-1", name := "Chart One", price_chart_code := "PC1" }

/-- Sample active price-chart item row. -/
def itemSample : ItemRow :=
  { id := "it1", product_id := "p1", product_name := "Widget",
    product_category := some "cement", product_unit := "kg", price_per_unit := 10,
    currency := "INR", effective_date := "2024-06-01", expiry_date := none }

/-- Sample finance ledger row. -/
def txSample : Transaction :=
  { id := "t1", transaction_type := "payment", amount := 50, description := "pay",
    transaction_date := "2024-06-02", reference_id := "r1", created_at := "2024-06-02" }

/-- Sample dealer balance row. -/
def balanceSample : DealerBalance :=
  { dealer_id := "d1", dealer_name := "Dealer One", dealer_code := "D001",
    current_balance := 150, last_transaction_date := "2024-06-02" }

/-- Sample finance payload as cached. -/
def financeSample : DealerFinanceData :=
  { transactions := [txSample], balance := some balanceSample }

/-- Sample order row as shown on the orders screen. -/
def orderRowSample : OrderRow :=
  { id := "ORD-1", product_name := "Widget", quantity := 5, total_price := 100,
    status := "processing", created_at := "2024-06-03" }

/-- Store response that echoes an insert payload back as the created order row. -/
def echoOrder (p : OrderInsert) : CreatedOrder :=
  { id := "ORD-1", dealer_id := p.dealer_id, salesman_id := p.salesman_id,
    product_id := p.product_id, product_name := p.product_name, unit := p.unit,
    quantity := p.quantity, price_chart_id := p.price_chart_id,
    price_per_unit := p.price_per_unit, total_price := p.total_price,
    status := p.status, notes := p.notes, created_at := "2024-06-03" }

/-- Fully healthy store oracle: every query succeeds with the sample rows. -/
def goodStore : Store :=
  { dealerByUser := fun _ => Except.ok (some dealerSample),
    dealerSalesman := fun _ => Except.ok (some (some "s1")),
    orderInsert := fun p => Except.ok (some (echoOrder p)),
    priceChartById := fun _ => Except.ok (some chartSample),
    priceChartItems := fun _ => Except.ok (some [itemSample]),
    ordersByDealer := fun _ => Except.ok [orderRowSample],
    finTransactions := fun _ => Except.ok (some [txSample]),
    finBalance := fun _ => Except.ok (some balanceSample) }

/-- Store error carrying the no-rows code of the remote store. -/
def pgNoRowsErr : StoreError :=
  { message := "JSON object requested, multiple (or no) rows returned",
    code := some "PGRST116" }

/-- Generic store fault with no recognized code. -/
def boomErr : StoreError := { message := "connection reset", code := none }

/-- Store whose dealer-by-user query reports the no-rows code. -/
def pgStore : Store := { goodStore with dealerByUser := fun _ => Except.error pgNoRowsErr }

/-- Store whose dealer-by-user query faults with a generic error. -/
def boomStore : Store := { goodStore with dealerByUser := fun _ => Except.error boomErr }

/-- Store whose active-items query returns zero rows. -/
def emptyItemsStore : Store :=
  { goodStore with priceChartItems := fun _ => Except.ok (some []) }

/-- Store whose price-chart lookup faults. -/
def chartFailStore : Store :=
  { goodStore with priceChartById := fun _ => Except.error boomErr }

/-- Store whose orders-by-dealer query faults. -/
def ordersFailStore : Store :=
  { goodStore with ordersByDealer := fun _ => Except.error boomErr }

/-- Order candidate matching the spec example scenario (quantity 5, unit price 20,
submitted total 99.99) except that its price chart reference is null. -/
def orderNoChart : CreateOrderData :=
  { dealer_id := "d1", product_id := "p1", product_name := "Widget", unit := "kg",
    quantity := 5, price_chart_id := none, price_per_unit := 20,
    total_price := Rat.divInt 9999 100, status := "processing", notes := none }

/-- Same candidate with the price chart reference present. -/
def orderWithChart : CreateOrderData := { orderNoChart with price_chart_id := some "pc-1" }

/-- Candidate violating the quantity rule. -/
def orderZeroQty : CreateOrderData := { orderWithChart with quantity := 0 }

/-- Orders cache snapshot holding one previously fetched page. -/
def cacheSample : OrdersCache := { lastFetch := some 0, payload := some [orderRowSample] }

/-- Finance cache snapshot with a fresh timestamp. -/
def financeCacheSample : FinanceCache := { lastFetch := some 0, payload := some financeSample }

/-- Initial orders screen state. -/
def screenInit : OrdersScreenState := { orders := [], error := none, loading := true }

/-- Helper: a candidate the validator accepts satisfies all seven rules. -/
theorem validateOrder_none (o : CreateOrderData) (h : validateOrder o = none) :
    o.dealer_id ≠ "" ∧ o.product_id ≠ "" ∧ o.product_name ≠ "" ∧ o.unit ≠ ""
    ∧ 0 < o.quantity ∧ 0 < o.price_per_unit ∧ 0 < o.total_price := by
  unfold validateOrder at h
  split_ifs at h with h1 h2 h3 h4 h5 h6 h7
  exact ⟨h1, h2, h3, h4, lt_of_not_le h5, lt_of_not_le h6, lt_of_not_le h7⟩

/-- Helper: the cache write flag affects neither the screen state nor the call trace
of an orders screen fetch, only the cache. -/
theorem fetchOrdersStep_writeOk_frame (store : Store) (uid : Option String)
    (oc : OrdersCache) (now : Nat) (s : OrdersScreenState) (w1 w2 : Bool) :
    (fetchOrdersStep store uid oc now w1 s).state = (fetchOrdersStep store uid oc now w2 s).state
    ∧ (fetchOrdersStep store uid oc now w1 s).calls =
        (fetchOrdersStep store uid oc now w2 s).calls := by
  cases uid with
  | none => exact ⟨rfl, rfl⟩
  | some u =>
      by_cases hu : u = ""
      · simp [fetchOrdersStep, hu]
      · rcases h1 : fetchDealerByUserId store u with ⟨res, cs⟩
        cases res with
        | error e => simp [fetchOrdersStep, hu, h1]
        | ok dealer =>
            rcases h2 : fetchDealerOrders store dealer.id with ⟨res2, cs2⟩
            cases res2 <;> simp [fetchOrdersStep, hu, h1, h2]

/-- Claim C6: the order submission validator checks the fields in the fixed order
dealer id, product id, product name, unit, quantity, unit price, total price, and
returns the validation error of the first violated rule only. -/
theorem validator_checks_fixed_order (o : CreateOrderData) :
    validateOrder o = firstViolation o := by
  unfold validateOrder firstViolation specFieldChecks
  by_cases h1 : o.dealer_id = "" <;> by_cases h2 : o.product_id = "" <;>
    by_cases h3 : o.product_name = "" <;> by_cases h4 : o.unit = "" <;>
    by_cases h5 : o.quantity ≤ 0 <;> by_cases h6 : o.price_per_unit ≤ 0 <;>
    by_cases h7 : o.total_price ≤ 0 <;>
    simp [h1, h2, h3, h4, h5, h6, h7, List.find?]

/-- Claim C3: an order candidate missing a required field or with a nonpositive
quantity, unit price or total price is rejected with a validation error and no remote
call at all is issued (no dealer lookup, no insert). -/
theorem invalid_order_no_remote (store : Store) (o : CreateOrderData)
    (h : o.dealer_id = "" ∨ o.product_id = "" ∨ o.product_name = "" ∨ o.unit = ""
      ∨ o.quantity ≤ 0 ∨ o.price_per_unit ≤ 0 ∨ o.total_price ≤ 0) :
    (∃ m, (createOrder store o).1 = Except.error (AppError.thrown m))
    ∧ (createOrder store o).2 = [] := by
  cases hv : validateOrder o with
  | some m => exact ⟨⟨m, by simp [createOrder, hv]⟩, by simp [createOrder, hv]⟩
  | none =>
      exfalso
      obtain ⟨hd, hp, hn, hun, hq, hpp, ht⟩ := validateOrder_none o hv
      rcases h with h|h|h|h|h|h|h
      · exact hd h
      · exact hp h
      · exact hn h
      · exact hun h
      · exact absurd h (not_le.mpr hq)
      · exact absurd h (not_le.mpr hpp)
      · exact absurd h (not_le.mpr ht)

/-- Witness for claim C3 at the zero-quantity candidate and the healthy store. -/
theorem invalid_order_no_remote_witness :
    (∃ m, (createOrder goodStore orderZeroQty).1 = Except.error (AppError.thrown m))
    ∧ (createOrder goodStore orderZeroQty).2 = [] :=
  invalid_order_no_remote goodStore orderZeroQty
    (Or.inr (Or.inr (Or.inr (Or.inr (Or.inl (by decide))))))

/-- Claim C10: a candidate whose price chart reference is null or empty never reaches
the remote store, and when the submission validator itself accepts it (the validator
does not check the price chart), creation still fails with the missing-required-fields
error of the inner createOrder guard. -/
theorem null_chart_rejected (store : Store) (o : CreateOrderData)
    (hpc : o.price_chart_id = none ∨ o.price_chart_id = some "") :
    ((createOrder store o).2 = []
      ∧ ∃ m, (createOrder store o).1 = Except.error (AppError.thrown m))
    ∧ (validateOrder o = none →
        (createOrder store o).1 =
          Except.error
            (AppError.thrown
              "Missing required fields. Please ensure all required data is provided.")) := by
  have hreq : requiredFieldsPresent o = false := by
    unfold requiredFieldsPresent
    rcases hpc with h|h <;> rw [h] <;> simp
  cases hv : validateOrder o with
  | some m =>
      refine ⟨⟨by simp [createOrder, hv], ⟨m, by simp [createOrder, hv]⟩⟩, fun hnone => ?_⟩
      exact Option.noConfusion hnone
  | none =>
      refine ⟨⟨?_, ⟨"Missing required fields. Please ensure all required data is provided.", ?_⟩⟩,
        fun _ => ?_⟩ <;>
        simp [createOrder, hv, createOrderApi, hreq]

/-- Witness for claim C10 at the null-chart candidate and the healthy store. -/
theorem null_chart_rejected_witness :
    ((createOrder goodStore orderNoChart).2 = []
      ∧ ∃ m, (createOrder goodStore orderNoChart).1 = Except.error (AppError.thrown m))
    ∧ (validateOrder orderNoChart = none →
        (createOrder goodStore orderNoChart).1 =
          Except.error
            (AppError.thrown
              "Missing required fields. Please ensure all required data is provided.")) :=
  null_chart_rejected goodStore orderNoChart (Or.inl rfl)

/-- Counterexample to claim C1: the candidate of the spec example scenario (quantity 5,
unit price 20, submitted total 99.99) with a null price chart reference passes every
check of the submission validator, yet createOrder fails against a fully healthy store
because the inner guard requires a truthy price chart reference. -/
theorem validator_pass_create_fails :
    validateOrder orderNoChart = none
    ∧ (createOrder goodStore orderNoChart).1 =
        Except.error
          (AppError.thrown
            "Missing required fields. Please ensure all required data is provided.") :=
  ⟨rfl, rfl⟩

/-- Claim C1 (amended): a candidate accepted by the submission validator that also
carries a nonempty price chart reference, against a store whose salesman lookup
succeeds and whose insert succeeds echoing the payload total, yields a created order
whose total price equals quantity times unit price as recomputed at submission time,
regardless of the submitted total price. -/
theorem create_order_total_recomputed (store : Store) (o : CreateOrderData) (c : String)
    (hv : validateOrder o = none)
    (hc : o.price_chart_id = some c) (hcne : c ≠ "")
    (hrow : ∃ r, store.dealerSalesman o.dealer_id = Except.ok r)
    (hins : ∀ p, ∃ ord, store.orderInsert p = Except.ok (some ord)
      ∧ ord.total_price = p.total_price) :
    ∃ ord, (createOrder store o).1 = Except.ok ord
      ∧ ord.total_price = o.quantity * o.price_per_unit := by
  obtain ⟨hd, hp, hn, hun, hq, hpp, ht⟩ := validateOrder_none o hv
  have hreq : requiredFieldsPresent o = true := by
    unfold requiredFieldsPresent
    rw [hc]
    simp [hd, hp, hn, hun, ne_of_gt hq, ne_of_gt hpp, hcne]
  obtain ⟨r, hr⟩ := hrow
  obtain ⟨ord, hord, htot⟩ := hins (mkOrderInsert o r)
  refine ⟨ord, ?_, ?_⟩
  · simp [createOrder, hv, createOrderApi, hreq, hr, hord]
  · rw [htot]
    rfl

/-- Witness for the amended claim C1 at the example-scenario candidate with a chart
reference, against the healthy echoing store. -/
theorem create_order_total_recomputed_witness :
    ∃ ord, (createOrder goodStore orderWithChart).1 = Except.ok ord
      ∧ ord.total_price = orderWithChart.quantity * orderWithChart.price_per_unit :=
  create_order_total_recomputed goodStore orderWithChart "pc-1" rfl rfl (by decide)
    ⟨some (some "s1"), rfl⟩ (fun p => ⟨echoOrder p, rfl, rfl⟩)

/-- Claim C4: on the same zero-row active-items result, fetchPriceChartItems fails
with the no-active-items error while fetchPriceChartProducts returns the empty list. -/
theorem zero_active_items_asymmetry (store : Store) (chartId : String)
    (h : chartId ≠ "")
    (hz : store.priceChartItems chartId = Except.ok (some [])
        ∨ store.priceChartItems chartId = Except.ok none) :
    (fetchPriceChartItems store chartId).1 =
      Except.error (AppError.thrown "No active price chart items found")
    ∧ (fetchPriceChartProducts store chartId).1 = Except.ok [] := by
  rcases hz with hz|hz <;>
    simp [fetchPriceChartItems, fetchPriceChartProducts, h, hz]

/-- Witness for claim C4 at the store whose active-items query returns zero rows. -/
theorem zero_active_items_asymmetry_witness :
    (fetchPriceChartItems emptyItemsStore "pc-1").1 =
      Except.error (AppError.thrown "No active price chart items found")
    ∧ (fetchPriceChartProducts emptyItemsStore "pc-1").1 = Except.ok [] :=
  zero_active_items_asymmetry emptyItemsStore "pc-1" (by decide) (Or.inl rfl)

/-- Claim C8: fetchDealerByUserId rejects an empty user id before any store query, maps
the no-rows store code PGRST116 to the no-dealer-found message, and passes any other
store fault through verbatim, its message unchanged. -/
theorem dealer_by_user_error_contract (store : Store) (u : String) (e : StoreError)
    (hu : u ≠ "") :
    fetchDealerByUserId store "" = (Except.error (AppError.thrown "User ID is required"), [])
    ∧ (store.dealerByUser u = Except.error e → e.code = some "PGRST116" →
        (fetchDealerByUserId store u).1 =
          Except.error (AppError.thrown "No dealer found for this user"))
    ∧ (store.dealerByUser u = Except.error e → e.code ≠ some "PGRST116" →
        (fetchDealerByUserId store u).1 = Except.error (AppError.store e)) := by
  refine ⟨rfl, fun he hc => ?_, fun he hc => ?_⟩ <;>
    simp [fetchDealerByUserId, hu, he, hc]

/-- Witness for claim C8 at the empty id, the no-rows store and the faulting store. -/
theorem dealer_by_user_error_contract_witness :
    fetchDealerByUserId pgStore "" = (Except.error (AppError.thrown "User ID is required"), [])
    ∧ (fetchDealerByUserId pgStore "u1").1 =
        Except.error (AppError.thrown "No dealer found for this user")
    ∧ (fetchDealerByUserId boomStore "u1").1 = Except.error (AppError.store boomErr) :=
  ⟨(dealer_by_user_error_contract pgStore "u1" pgNoRowsErr (by decide)).1,
   (dealer_by_user_error_contract pgStore "u1" pgNoRowsErr (by decide)).2.1 rfl rfl,
   (dealer_by_user_error_contract boomStore "u1" boomErr (by decide)).2.2 rfl (by decide)⟩

/-- Claim C9: when the dealer row carries a price chart reference and the price chart
lookup fails, fetchDealerDetails still succeeds, returning the dealer fields with a
null price chart; the lookup error is swallowed. -/
theorem chart_error_swallowed (store : Store) (u : String) (d : DealerData) (c : String)
    (hu : u ≠ "")
    (hd : store.dealerByUser u = Except.ok (some d))
    (hc : d.price_chart_code = some c) (hcne : c ≠ "")
    (hfail : ∃ ae, (fetchPriceChartByCode store c).1 = Except.error ae) :
    (fetchDealerDetails store u).1 =
      Except.ok { id := d.id, name := d.name, dealer_code := d.dealer_code,
                  salesman_id := d.salesman_id, price_chart := none } := by
  obtain ⟨ae, hae⟩ := hfail
  rcases h2 : fetchPriceChartByCode store c with ⟨res2, cs2⟩
  rw [h2] at hae
  cases res2 with
  | ok pc => exact absurd hae (by simp)
  | error x => simp [fetchDealerDetails, fetchDealerByUserId, hu, hd, hc, hcne, h2]

/-- Witness for claim C9 at the store whose price chart lookup faults. -/
theorem chart_error_swallowed_witness :
    (fetchDealerDetails chartFailStore "u1").1 =
      Except.ok { id := dealerSample.id, name := dealerSample.name,
                  dealer_code := dealerSample.dealer_code,
                  salesman_id := dealerSample.salesman_id, price_chart := none } :=
  chart_error_swallowed chartFailStore "u1" dealerSample "pc-1" (by decide) rfl rfl
    (by decide)
    ⟨AppError.thrown ("Failed to fetch price chart: " ++ boomErr.message), rfl⟩

/-- Claim C5: when the remote part of an orders load fails, the screen surfaces an
error message, the cache entry is left untouched, and a subsequent cached load within
the validity window still returns the previously cached payload. -/
theorem fetch_failure_preserves_cache (store : Store) (u : String) (cache : OrdersCache)
    (now now2 t : Nat) (writeOk : Bool) (s s2 : OrdersScreenState) (rows0 : List OrderRow)
    (hu : u ≠ "")
    (hfail : ordersRemoteFails store u)
    (ht : cache.lastFetch = some t) (hp : cache.payload = some rows0)
    (hw : now2 - t < CACHE_DURATION) :
    (fetchOrdersStep store (some u) cache now writeOk s).cache = cache
    ∧ (∃ m, (fetchOrdersStep store (some u) cache now writeOk s).state.error = some m)
    ∧ loadCachedData cache now2 true s2 = (true, { s2 with orders := rows0 }) := by
  have hload : loadCachedData cache now2 true s2 = (true, { s2 with orders := rows0 }) := by
    simp [loadCachedData, ht, hp, hw]
  unfold ordersRemoteFails at hfail
  cases hdu : store.dealerByUser u with
  | error e =>
      by_cases hcode : e.code = some "PGRST116"
      · refine ⟨?_, ⟨"No dealer found for this user", ?_⟩, hload⟩ <;>
          simp [fetchOrdersStep, fetchDealerByUserId, hu, hdu, hcode, caughtMessage]
      · refine ⟨?_, ⟨"Failed to fetch orders", ?_⟩, hload⟩ <;>
          simp [fetchOrdersStep, fetchDealerByUserId, hu, hdu, hcode, caughtMessage]
  | ok od =>
      cases od with
      | none =>
          refine ⟨?_, ⟨"Dealer not found", ?_⟩, hload⟩ <;>
            simp [fetchOrdersStep, fetchDealerByUserId, hu, hdu, caughtMessage]
      | some d =>
          rw [hdu] at hfail
          obtain ⟨e, he⟩ := hfail
          by_cases hdid : d.id = ""
          · refine ⟨?_, ⟨"Dealer ID is required", ?_⟩, hload⟩ <;>
              simp [fetchOrdersStep, fetchDealerByUserId, fetchDealerOrders, hu, hdu, hdid,
                caughtMessage]
          · refine ⟨?_, ⟨"Failed to fetch orders", ?_⟩, hload⟩ <;>
              simp [fetchOrdersStep, fetchDealerByUserId, fetchDealerOrders, hu, hdu, hdid, he,
                caughtMessage]

/-- Witness for claim C5 at the store whose orders query faults, with a populated
cache entry read again one second later. -/
theorem fetch_failure_preserves_cache_witness :
    (fetchOrdersStep ordersFailStore (some "u1") cacheSample 1000 true screenInit).cache =
      cacheSample
    ∧ (∃ m, (fetchOrdersStep ordersFailStore (some "u1") cacheSample 1000 true
        screenInit).state.error = some m)
    ∧ loadCachedData cacheSample 2000 true screenInit =
        (true, { screenInit with orders := [orderRowSample] }) :=
  fetch_failure_preserves_cache ordersFailStore "u1" cacheSample 1000 2000 0 true
    screenInit screenInit [orderRowSample] (by decide) ⟨boomErr, rfl⟩ rfl rfl (by decide)

/-- Claim C7: a local-storage failure in any cache helper is swallowed and treated
as a cache miss, never surfaced: validity reads report invalid, payload reads report
empty, saves leave the entry unchanged, and an orders fetch behaves identically toward
the caller (same state, same remote calls) whether or not the cache write fails. -/
theorem cache_errors_swallowed (fc : FinanceCache) (oc : OrdersCache) (now : Nat)
    (d : DealerFinanceData) (rows : List OrderRow) (s : OrdersScreenState)
    (store : Store) (uid : Option String) :
    isCacheValid fc now false = false
    ∧ getCachedData fc false = none
    ∧ saveToCache fc d now false = fc
    ∧ loadCachedData oc now false s = (false, s)
    ∧ ordersSaveToCache oc rows now false = oc
    ∧ (fetchOrdersStep store uid oc now false s).state =
        (fetchOrdersStep store uid oc now true s).state
    ∧ (fetchOrdersStep store uid oc now false s).calls =
        (fetchOrdersStep store uid oc now true s).calls :=
  ⟨rfl, rfl, rfl, rfl, rfl,
   (fetchOrdersStep_writeOk_frame store uid oc now s false true).1,
   (fetchOrdersStep_writeOk_frame store uid oc now s false true).2⟩

/-- Code-bug evidence for claim C2: even with a valid, populated finance cache entry,
fetchDealerFinance with forceRefresh false performs the full remote fetch sequence on
every call, because the cache helpers and the forceRefresh parameter are dead code;
two loads inside the validity window therefore perform two remote fetch rounds, not
one. -/
theorem finance_load_ignores_cache :
    isCacheValid financeCacheSample 1000 true = true
    ∧ getCachedData financeCacheSample true = some financeSample
    ∧ (fetchDealerFinance goodStore "u1" false).2 =
        [RemoteCall.dealersByUser "u1", RemoteCall.finTransactions "d1",
         RemoteCall.finBalance "d1"]
    ∧ (fetchDealerFinance goodStore "u1" false).2 ≠ [] :=
  ⟨rfl, rfl, rfl, by decide⟩
